/-
Verification of the natural-language specification of the servicenow-mcp
repository against its source (`mcp_server_servicenow/api_server.py` and
`mcp_server_servicenow/cli.py`), as a shallow embedding in Lean 4.

Conventions:
* Python strings are Lean `String`s; `s.strip()` is `String.trim`,
  `s.lower()` is `String.toLower`, and Python's substring test
  `sub in s` is `pyContains sub s` below.
* JSON values are the inductive `JVal`; a JSON request body is an
  association list `List (String × JVal)` read left to right.
* A Python function that may raise is a Lean function into
  `Except String _`, the error carrying `str(e)`.
* The external collaborators (the ServiceNow transport and `json.loads`)
  are passed in explicitly, so theorems quantify over their behaviour.
-/
import Mathlib

namespace ServiceNowMCP

/-! ## JSON values and request bodies -/

/-- A JSON value, as produced by `json.loads` / consumed by `JSONResponse`. -/
inductive JVal where
  | jnull : JVal
  | jbool : Bool → JVal
  | jnum : Int → JVal
  | jstr : String → JVal
  | jarr : List JVal → JVal
  | jobj : List (String × JVal) → JVal

/-- First binding of key `k` in a JSON object body, if any. -/
def lookupKey (k : String) : List (String × JVal) → Option JVal
  | [] => none
  | (k2, v) :: rest => if k2 = k then some v else lookupKey k rest

/-! ## CLI interactive mode (`cli.py`, `interactive_mode`) -/

/-- Python's substring containment `sub in s`, on character lists. -/
def isSubChars (sub : List Char) : List Char → Bool
  | [] => sub.isEmpty
  | c :: t => sub.isPrefixOf (c :: t) || isSubChars sub t

/-- Python's `sub in s` for strings. -/
def pyContains (sub s : String) : Bool :=
  isSubChars sub.data s.data

/-- Python's `s.lower()` (character-wise lowercasing). -/
def lowerStr (s : String) : String :=
  ⟨s.data.map Char.toLower⟩

/-- Python's `s.strip()`: remove whitespace from both ends. -/
def stripStr (s : String) : String :=
  ⟨((s.data.dropWhile Char.isWhitespace).reverse.dropWhile Char.isWhitespace).reverse⟩

/-- The quit keywords checked by `interactive_mode`:
`query.lower() in ['quit', 'exit', 'q']`. -/
def quitWords : List String := ["quit", "exit", "q"]

/-- The mutation-verb vocabulary of `interactive_mode` (cli.py line 33):
`['update', 'set', 'close', 'change', 'modify']`. -/
def updateVerbs : List String := ["update", "set", "close", "change", "modify"]

/-- `any(word in query.lower() for word in [...])` (cli.py line 33). -/
def isUpdateCommand (query : String) : Bool :=
  updateVerbs.any fun w => pyContains w (lowerStr query)

/-- What `interactive_mode` does with one entered line. -/
inductive LineAction where
  | skip : LineAction
  | quit : LineAction
  | update : String → LineAction
  | search : String → LineAction
deriving DecidableEq

/-- One iteration of the `interactive_mode` loop body on the entered line:
strip, skip empty lines, break on a quit keyword, otherwise dispatch to
`natural_language_update` when a mutation verb is contained in the lowercased
text and to `natural_language_search` otherwise (cli.py lines 21-40). -/
def processLine (line : String) : LineAction :=
  if stripStr line = "" then .skip
  else if quitWords.contains (lowerStr (stripStr line)) then .quit
  else if isUpdateCommand (stripStr line) then .update (stripStr line)
  else .search (stripStr line)

/-- The `interactive_mode` loop run over a list of entered lines: the trace of
actions taken, and whether the loop terminated via a quit keyword. -/
def runLoop : List String → List LineAction × Bool
  | [] => ([], false)
  | l :: rest =>
    match processLine l with
    | .skip => ((runLoop rest).1.cons .skip, (runLoop rest).2)
    | .quit => ([.quit], true)
    | .update q => ((runLoop rest).1.cons (.update q), (runLoop rest).2)
    | .search q => ((runLoop rest).1.cons (.search q), (runLoop rest).2)

/-- A line on which the loop breaks: its stripped lowercasing is a quit
keyword (the empty stripped line is never one, since `quitWords` has no
empty entry). -/
def isQuitLine (line : String) : Bool :=
  quitWords.contains (lowerStr (stripStr line))

/-- The mutation vocabulary as the spec's §4.2 states it (it additionally
lists "resolve" and "assign"); kept separate from `updateVerbs`, which is
the vocabulary actually in cli.py. -/
def specMutationVerbs : List String :=
  ["update", "set", "close", "change", "modify", "resolve", "assign"]

theorem quit_of_processLine_eq_quit (l : String) :
    processLine l = .quit ↔ isQuitLine l = true := by
  unfold processLine isQuitLine
  split_ifs with h0 hq hu
  · constructor
    · intro h; exact absurd h (by simp)
    · intro h; rw [h0] at h; exact absurd h (by decide)
  · exact ⟨fun _ => hq, fun _ => rfl⟩
  · constructor
    · intro h; exact absurd h (by simp)
    · intro h; exact absurd h hq
  · constructor
    · intro h; exact absurd h (by simp)
    · intro h; exact absurd h hq

theorem runLoop_snd_eq_any (lines : List String) :
    (runLoop lines).2 = lines.any isQuitLine := by
  induction lines with
  | nil => rfl
  | cons l rest ih =>
    by_cases hq : isQuitLine l = true
    · have hp : processLine l = .quit := (quit_of_processLine_eq_quit l).mpr hq
      simp [runLoop, hp, hq, List.any_cons]
    · have hp : processLine l ≠ .quit := fun h =>
        hq ((quit_of_processLine_eq_quit l).mp h)
      have hq' : isQuitLine l = false := by
        cases h : isQuitLine l
        · rfl
        · exact absurd h hq
      unfold runLoop
      cases h : processLine l with
      | skip => simpa [List.any_cons, hq'] using ih
      | quit => exact absurd h hp
      | update q => simpa [List.any_cons, hq'] using ih
      | search q => simpa [List.any_cons, hq'] using ih

theorem update_dispatch_of_mem_verbs (q w : String)
    (hw : w ∈ updateVerbs)
    (hc : pyContains w (lowerStr (stripStr q)) = true)
    (hne : stripStr q ≠ "")
    (hq : quitWords.contains (lowerStr (stripStr q)) = false) :
    processLine q = .update (stripStr q) := by
  have hu : isUpdateCommand (stripStr q) = true := by
    unfold isUpdateCommand
    exact List.any_eq_true.mpr ⟨w, hw, hc⟩
  unfold processLine
  rw [if_neg hne, if_neg (by rw [hq]; decide), if_pos hu]

/-- C3 — counterexample: the command `"resolve INC0010001"` contains the
mutation verb "resolve" of the claimed vocabulary, yet `interactive_mode`
dispatches it to the search path, not the update path: "resolve" and
"assign" are absent from the verb list in cli.py line 33. -/
theorem C3_resolve_routes_to_search :
    processLine "resolve INC0010001" = .search "resolve INC0010001" ∧
      processLine "resolve INC0010001" ≠ .update "resolve INC0010001" := by
  constructor
  · decide
  · decide

/-- C3 (amended): for every interactive-mode command whose lowercased text
contains any verb from the fixed mutation vocabulary actually present in the
code — "update", "set", "close", "change", or "modify" (not "resolve" or
"assign") — and which is not empty or a quit keyword after stripping, the
CLI dispatches the command to the natural-language update path rather than
the search path. -/
theorem C3_code_verbs_dispatch_update (q : String)
    (hne : stripStr q ≠ "")
    (hq : quitWords.contains (lowerStr (stripStr q)) = false)
    (hv : updateVerbs.any (fun w => pyContains w (lowerStr (stripStr q))) = true) :
    processLine q = .update (stripStr q) := by
  obtain ⟨w, hw, hc⟩ := List.any_eq_true.mp hv
  exact update_dispatch_of_mem_verbs q w hw hc hne hq

/-- C3 witness: the concrete command `"close INC0010002"` is dispatched to
the update path. -/
theorem C3_code_verbs_dispatch_update_witness :
    processLine "close INC0010002" = .update "close INC0010002" :=
  C3_code_verbs_dispatch_update "close INC0010002"
    (by decide) (by decide) (by decide)

/-- C4 (confirmed): an interactive-mode command containing none of the
mutation verbs (taking even the spec's larger vocabulary, including
"resolve" and "assign") is routed to the search path, whatever
reference-like substrings it contains; a bare record reference never forces
the update path. -/
theorem C4_no_verb_routes_to_search (q : String)
    (hne : stripStr q ≠ "")
    (hq : quitWords.contains (lowerStr (stripStr q)) = false)
    (hv : specMutationVerbs.all
      (fun w => !pyContains w (lowerStr (stripStr q))) = true) :
    processLine q = .search (stripStr q) := by
  have hu : isUpdateCommand (stripStr q) = false := by
    simp only [specMutationVerbs, List.all_cons, List.all_nil,
      Bool.and_eq_true, Bool.not_eq_true', and_true] at hv
    obtain ⟨h1, h2, h3, h4, h5, -, -⟩ := hv
    simp [isUpdateCommand, updateVerbs, h1, h2, h3, h4, h5]
  unfold processLine
  rw [if_neg hne, if_neg (by rw [hq]; decide), if_neg (by simp [hu])]

/-- C4 witness: the concrete line `"INC0010003 is broken"` (no mutation
verb, a record reference present) is routed to the search path. -/
theorem C4_no_verb_routes_to_search_witness :
    processLine "INC0010003 is broken" = .search "INC0010003 is broken" :=
  C4_no_verb_routes_to_search "INC0010003 is broken"
    (by decide) (by decide) (by decide)

/-- C9 (confirmed): the interactive loop terminates by quit exactly when
some entered line strips and lowercases to a quit keyword; a line that
strips to the empty string is skipped without dispatching; every other
non-quit line is dispatched to the update or the search path; and a single
line breaks the loop exactly when it is a quit line. -/
theorem C9_interactive_loop (lines : List String) (l : String) :
    ((runLoop lines).2 = true ↔ ∃ x ∈ lines, isQuitLine x = true) ∧
    (stripStr l = "" → processLine l = .skip) ∧
    (stripStr l ≠ "" → isQuitLine l = false →
      (processLine l = .update (stripStr l) ∨
        processLine l = .search (stripStr l))) ∧
    (processLine l = .quit ↔ isQuitLine l = true) := by
  refine ⟨?_, ?_, ?_, quit_of_processLine_eq_quit l⟩
  · rw [runLoop_snd_eq_any]
    exact List.any_eq_true
  · intro h0
    unfold processLine
    rw [if_pos h0]
  · intro hne hq
    have hq' : quitWords.contains (lowerStr (stripStr l)) = false := hq
    unfold processLine
    rw [if_neg hne, if_neg (by rw [hq']; decide)]
    by_cases hu : isUpdateCommand (stripStr l) = true
    · left; rw [if_pos hu]
    · right; rw [if_neg hu]

/-- C9 witness: on the input lines `["", "find email", "quit"]` the loop
terminates via the quit keyword, and the line `" "` is skipped. -/
theorem C9_interactive_loop_witness :
    (runLoop ["", "find email", "quit"]).2 = true ∧
      processLine " " = .skip :=
  ⟨(C9_interactive_loop ["", "find email", "quit"] " ").1.mpr
      ⟨"quit", by decide, by decide⟩,
    (C9_interactive_loop ["", "find email", "quit"] " ").2.1 (by decide)⟩

/-- C10 (confirmed): the mutation-verb test is substring containment over
the whole lowercased line, not a word match: whenever one of the five verbs
occurs anywhere in the lowercased stripped line — including inside a longer
word such as "reset" (contains "set") — the line is dispatched to the
update path. -/
theorem C10_substring_containment_dispatch (q w : String)
    (hw : w ∈ updateVerbs)
    (hc : pyContains w (lowerStr (stripStr q)) = true)
    (hne : stripStr q ≠ "")
    (hq : quitWords.contains (lowerStr (stripStr q)) = false) :
    processLine q = .update (stripStr q) :=
  update_dispatch_of_mem_verbs q w hw hc hne hq

/-- C10 witness: `"reset INC0010001"` contains "set" only inside the word
"reset", and is dispatched to the update path. -/
theorem C10_substring_containment_dispatch_witness :
    processLine "reset INC0010001" = .update "reset INC0010001" :=
  C10_substring_containment_dispatch "reset INC0010001" "set"
    (by decide) (by decide) (by decide) (by decide)

/-! ## Request models of the HTTP front end (`api_server.py`)

The pydantic `BaseModel`s of api_server.py are parsed from the JSON request
body with pydantic's default model configuration: a required field must be
present with the declared type, an `Optional` field may be absent or null,
a field with a declared default takes it when absent, and keys that are not
declared fields are ignored. -/

/-- Parse a required `str` field. -/
def parseReqStr (k : String) (body : List (String × JVal)) : Except String String :=
  match lookupKey k body with
  | some (.jstr s) => .ok s
  | some _ => .error ("Input should be a valid string: " ++ k)
  | none => .error ("Field required: " ++ k)

/-- Parse an `Optional[str]` field (default `None`). -/
def parseOptStr (k : String) (body : List (String × JVal)) :
    Except String (Option String) :=
  match lookupKey k body with
  | some (.jstr s) => .ok (some s)
  | some .jnull => .ok none
  | some _ => .error ("Input should be a valid string: " ++ k)
  | none => .ok none

/-- Parse an `Optional[int]` field (default `None`). -/
def parseOptInt (k : String) (body : List (String × JVal)) :
    Except String (Option Int) :=
  match lookupKey k body with
  | some (.jnum n) => .ok (some n)
  | some .jnull => .ok none
  | some _ => .error ("Input should be a valid integer: " ++ k)
  | none => .ok none

/-- Parse a `str` field with a declared default. -/
def parseDefStr (k : String) (d : String) (body : List (String × JVal)) :
    Except String String :=
  match lookupKey k body with
  | some (.jstr s) => .ok s
  | some _ => .error ("Input should be a valid string: " ++ k)
  | none => .ok d

/-- Parse an `int` field with a declared default. -/
def parseDefInt (k : String) (d : Int) (body : List (String × JVal)) :
    Except String Int :=
  match lookupKey k body with
  | some (.jnum n) => .ok n
  | some _ => .error ("Input should be a valid integer: " ++ k)
  | none => .ok d

/-- Turn a list of JSON values into strings, when they all are strings. -/
def asStrList : List JVal → Except String (List String)
  | [] => .ok []
  | .jstr s :: rest => do
    let r ← asStrList rest
    pure (s :: r)
  | _ :: _ => .error "Input should be a valid string"

/-- Parse an `Optional[list[str]]` field (default `None`). -/
def parseOptStrList (k : String) (body : List (String × JVal)) :
    Except String (Option (List String)) :=
  match lookupKey k body with
  | some (.jarr xs) => do
    let r ← asStrList xs
    pure (some r)
  | some .jnull => .ok none
  | some _ => .error ("Input should be a valid list: " ++ k)
  | none => .ok none

/-- `UpdateIncidentRequest` (api_server.py lines 74-80): a required incident
`number` and five optional updatable fields. -/
structure UpdateIncidentRequest where
  number : String
  short_description : Option String
  description : Option String
  state : Option Int
  work_notes : Option String
  comments : Option String

/-- The declared field names of `UpdateIncidentRequest`. -/
def updateIncidentRequestKeys : List String :=
  ["number", "short_description", "description", "state", "work_notes", "comments"]

/-- Validation of an `/api/v1/incidents/update` request body against
`UpdateIncidentRequest`, with pydantic's default configuration (undeclared
keys are ignored). -/
def UpdateIncidentRequest.parse (body : List (String × JVal)) :
    Except String UpdateIncidentRequest := do
  let number ← parseReqStr "number" body
  let sd ← parseOptStr "short_description" body
  let d ← parseOptStr "description" body
  let st ← parseOptInt "state" body
  let wn ← parseOptStr "work_notes" body
  let cm ← parseOptStr "comments" body
  pure ⟨number, sd, d, st, wn, cm⟩

/-- `PerformQueryRequest` (api_server.py lines 82-87). -/
structure PerformQueryRequest where
  table : String
  query : String
  limit : Int
  offset : Int
  fields : Option (List String)

/-- Validation of an `/api/v1/query/perform` request body against
`PerformQueryRequest`: `table` is required, `query` defaults to `""`,
`limit` to `10`, `offset` to `0`, `fields` to `None`; no bound on `limit`
or `offset` is declared. -/
def PerformQueryRequest.parse (body : List (String × JVal)) :
    Except String PerformQueryRequest := do
  let table ← parseReqStr "table" body
  let query ← parseDefStr "query" "" body
  let limit ← parseDefInt "limit" 10 body
  let offset ← parseDefInt "offset" 0 body
  let fields ← parseOptStrList "fields" body
  pure ⟨table, query, limit, offset, fields⟩

/-- `SearchRecordsRequest` (api_server.py lines 54-57). -/
structure SearchRecordsRequest where
  query : String
  table : String
  limit : Int

/-- Validation of an `/api/v1/search/records` request body against
`SearchRecordsRequest`: `query` is required, `table` defaults to
`"incident"`, `limit` to `10`. -/
def SearchRecordsRequest.parse (body : List (String × JVal)) :
    Except String SearchRecordsRequest := do
  let query ← parseReqStr "query" body
  let table ← parseDefStr "table" "incident" body
  let limit ← parseDefInt "limit" 10 body
  pure ⟨query, table, limit⟩

theorem lookupKey_filter (keys : List String) (k : String)
    (hk : keys.contains k = true) (body : List (String × JVal)) :
    lookupKey k (body.filter fun kv => keys.contains kv.1) = lookupKey k body := by
  induction body with
  | nil => rfl
  | cons kv rest ih =>
    obtain ⟨k2, v⟩ := kv
    rw [List.filter_cons]
    by_cases hmem : keys.contains k2 = true
    · rw [if_pos (by simpa using hmem)]
      by_cases h : k2 = k
      · simp [lookupKey, h]
      · simp only [lookupKey, if_neg h]
        exact ih
    · rw [if_neg (by simpa using hmem)]
      have h : k2 ≠ k := fun he => hmem (by rw [he]; exact hk)
      rw [ih]
      simp [lookupKey, h]

theorem parseReqStr_filter (keys : List String) (k : String)
    (hk : keys.contains k = true) (body : List (String × JVal)) :
    parseReqStr k (body.filter fun kv => keys.contains kv.1) = parseReqStr k body := by
  unfold parseReqStr
  rw [lookupKey_filter keys k hk body]

theorem parseOptStr_filter (keys : List String) (k : String)
    (hk : keys.contains k = true) (body : List (String × JVal)) :
    parseOptStr k (body.filter fun kv => keys.contains kv.1) = parseOptStr k body := by
  unfold parseOptStr
  rw [lookupKey_filter keys k hk body]

theorem parseOptInt_filter (keys : List String) (k : String)
    (hk : keys.contains k = true) (body : List (String × JVal)) :
    parseOptInt k (body.filter fun kv => keys.contains kv.1) = parseOptInt k body := by
  unfold parseOptInt
  rw [lookupKey_filter keys k hk body]

/-- C1 — counterexample: an update-incident body carrying the unrecognized
key `"priority_xyz"` is accepted by request validation (not rejected with
an UnknownField error), and parses to the same request as the body without
that key: the unknown key is silently dropped. -/
theorem C1_priority_xyz_accepted :
    UpdateIncidentRequest.parse
        [("number", .jstr "INC0010001"), ("priority_xyz", .jstr "high")]
      = .ok ⟨"INC0010001", none, none, none, none, none⟩ ∧
    UpdateIncidentRequest.parse
        [("number", .jstr "INC0010001"), ("priority_xyz", .jstr "high")]
      = UpdateIncidentRequest.parse [("number", .jstr "INC0010001")] :=
  ⟨rfl, rfl⟩

/-- C1 (amended): request validation of an update-incident body ignores
every key outside the declared field set (number, short_description,
description, state, work_notes, comments): the outcome of parsing equals
the outcome of parsing the body with all undeclared keys removed. Unknown
keys are silently dropped; no UnknownField rejection exists, and the
recognized set does not include category, subcategory, urgency, impact,
assignment_group or assigned_to. -/
theorem C1_unknown_keys_silently_dropped (body : List (String × JVal)) :
    UpdateIncidentRequest.parse body
      = UpdateIncidentRequest.parse
          (body.filter fun kv => updateIncidentRequestKeys.contains kv.1) := by
  unfold UpdateIncidentRequest.parse
  rw [parseReqStr_filter updateIncidentRequestKeys "number" (by decide) body,
    parseOptStr_filter updateIncidentRequestKeys "short_description" (by decide) body,
    parseOptStr_filter updateIncidentRequestKeys "description" (by decide) body,
    parseOptInt_filter updateIncidentRequestKeys "state" (by decide) body,
    parseOptStr_filter updateIncidentRequestKeys "work_notes" (by decide) body,
    parseOptStr_filter updateIncidentRequestKeys "comments" (by decide) body]

theorem performQuery_parse_fields (body : List (String × JVal))
    (r : PerformQueryRequest) (h : PerformQueryRequest.parse body = .ok r) :
    parseDefInt "limit" 10 body = .ok r.limit ∧
      parseDefInt "offset" 0 body = .ok r.offset := by
  cases h1 : parseReqStr "table" body with
  | error e => simp [PerformQueryRequest.parse, h1, bind, Except.bind] at h
  | ok t =>
  cases h2 : parseDefStr "query" "" body with
  | error e => simp [PerformQueryRequest.parse, h1, h2, bind, Except.bind] at h
  | ok qv =>
  cases h3 : parseDefInt "limit" 10 body with
  | error e => simp [PerformQueryRequest.parse, h1, h2, h3, bind, Except.bind] at h
  | ok lim =>
  cases h4 : parseDefInt "offset" 0 body with
  | error e => simp [PerformQueryRequest.parse, h1, h2, h3, h4, bind, Except.bind] at h
  | ok off =>
  cases h5 : parseOptStrList "fields" body with
  | error e =>
    simp [PerformQueryRequest.parse, h1, h2, h3, h4, h5, bind, Except.bind] at h
  | ok fs =>
    simp only [PerformQueryRequest.parse, h1, h2, h3, h4, h5, bind, Except.bind,
      pure, Except.pure, Except.ok.injEq] at h
    rw [← h]
    exact ⟨rfl, rfl⟩

theorem searchRecords_parse_fields (body : List (String × JVal))
    (s : SearchRecordsRequest) (h : SearchRecordsRequest.parse body = .ok s) :
    parseDefStr "table" "incident" body = .ok s.table ∧
      parseDefInt "limit" 10 body = .ok s.limit := by
  cases h1 : parseReqStr "query" body with
  | error e => simp [SearchRecordsRequest.parse, h1, bind, Except.bind] at h
  | ok qv =>
  cases h2 : parseDefStr "table" "incident" body with
  | error e => simp [SearchRecordsRequest.parse, h1, h2, bind, Except.bind] at h
  | ok t =>
  cases h3 : parseDefInt "limit" 10 body with
  | error e => simp [SearchRecordsRequest.parse, h1, h2, h3, bind, Except.bind] at h
  | ok lim =>
    simp only [SearchRecordsRequest.parse, h1, h2, h3, bind, Except.bind,
      pure, Except.pure, Except.ok.injEq] at h
    rw [← h]
    exact ⟨rfl, rfl⟩

theorem parseDefInt_absent (k : String) (d : Int) (body : List (String × JVal))
    (h : lookupKey k body = none) : parseDefInt k d body = .ok d := by
  unfold parseDefInt
  rw [h]

theorem parseDefStr_absent (k d : String) (body : List (String × JVal))
    (h : lookupKey k body = none) : parseDefStr k d body = .ok d := by
  unfold parseDefStr
  rw [h]

/-- C5 — counterexample: a structured-query body with `"limit": 0` is
accepted by request validation — `PerformQueryRequest` declares no bound —
so not every accepted request satisfies `limit > 0`. -/
theorem C5_limit_zero_accepted :
    PerformQueryRequest.parse [("table", .jstr "incident"), ("limit", .jnum 0)]
      = .ok ⟨"incident", "", 0, 0, none⟩ ∧
    ¬(0 < (⟨"incident", "", 0, 0, none⟩ : PerformQueryRequest).limit) :=
  ⟨rfl, by decide⟩

/-- C5 (amended): the defaults hold — an accepted structured-query request
whose body omits `limit` gets limit 10 and one omitting `offset` gets
offset 0, and an accepted text-search request whose body omits `table` gets
table "incident" and one omitting `limit` gets limit 10 — but no invariant
`limit > 0` or `offset ≥ 0` is enforced on explicitly supplied values. -/
theorem C5_request_defaults (body body2 : List (String × JVal))
    (r : PerformQueryRequest) (s : SearchRecordsRequest) :
    (PerformQueryRequest.parse body = .ok r →
      lookupKey "limit" body = none → r.limit = 10) ∧
    (PerformQueryRequest.parse body = .ok r →
      lookupKey "offset" body = none → r.offset = 0) ∧
    (SearchRecordsRequest.parse body2 = .ok s →
      lookupKey "table" body2 = none → s.table = "incident") ∧
    (SearchRecordsRequest.parse body2 = .ok s →
      lookupKey "limit" body2 = none → s.limit = 10) := by
  refine ⟨fun h hl => ?_, fun h hl => ?_, fun h hl => ?_, fun h hl => ?_⟩
  · have h1 := (performQuery_parse_fields body r h).1
    rw [parseDefInt_absent "limit" 10 body hl] at h1
    exact (Except.ok.inj h1).symm
  · have h1 := (performQuery_parse_fields body r h).2
    rw [parseDefInt_absent "offset" 0 body hl] at h1
    exact (Except.ok.inj h1).symm
  · have h1 := (searchRecords_parse_fields body2 s h).1
    rw [parseDefStr_absent "table" "incident" body2 hl] at h1
    exact (Except.ok.inj h1).symm
  · have h1 := (searchRecords_parse_fields body2 s h).2
    rw [parseDefInt_absent "limit" 10 body2 hl] at h1
    exact (Except.ok.inj h1).symm

/-- C5 witness: the body `{"table": "incident"}` parses with limit 10 and
offset 0, and `{"query": "email"}` parses with table "incident", limit
10. -/
theorem C5_request_defaults_witness :
    (⟨"incident", "", 10, 0, none⟩ : PerformQueryRequest).limit = 10 ∧
    (⟨"email", "incident", 10⟩ : SearchRecordsRequest).table = "incident" :=
  ⟨(C5_request_defaults [("table", .jstr "incident")] [("query", .jstr "email")]
      ⟨"incident", "", 10, 0, none⟩ ⟨"email", "incident", 10⟩).1 rfl rfl,
    (C5_request_defaults [("table", .jstr "incident")] [("query", .jstr "email")]
      ⟨"incident", "", 10, 0, none⟩ ⟨"email", "incident", 10⟩).2.2.1 rfl rfl⟩

/-! ## HTTP endpoint handlers (`api_server.py`) -/

/-- The response an endpoint handler produces: a 200 `JSONResponse`, or an
`HTTPException` with a status code and a detail message. -/
inductive HResp where
  | ok : JVal → HResp
  | httpError : Nat → String → HResp

/-- The HTTP status code of a response. -/
def HResp.status : HResp → Nat
  | .ok _ => 200
  | .httpError c _ => c

/-- The common body of the plain JSON endpoints of api_server.py —
`natural_language_update` (lines 207-218), `search_records` (220-231),
`get_record` (233-243), `create_incident` (245-263), `update_incident`
(265-282), `perform_query` (284-297), `get_incident_by_number` (299-306)
and `list_incidents` (308-315): inside `try`, await the façade call and
return `JSONResponse(content=json.loads(result))`; on any exception raise
`HTTPException(status_code=500, detail=str(e))`. `call` is the outcome of
the awaited façade call and `jsonLoads` the behaviour of `json.loads`. -/
def jsonEndpoint (call : Except String String)
    (jsonLoads : String → Except String JVal) : HResp :=
  match call with
  | .error e => .httpError 500 e
  | .ok s =>
    match jsonLoads s with
    | .ok j => .ok j
    | .error e => .httpError 500 e

/-- The `/api/v1/debug/info` handler (api_server.py lines 318-330): builds
its status dictionary inside `try` and, if an exception is raised while
doing so, returns the dictionary with the single key "error" — in both
cases as a normal 200 JSON response, never an HTTPException. -/
def debug_info_handler (attempt : Except String JVal) : HResp :=
  match attempt with
  | .ok j => .ok j
  | .error e => .ok (.jobj [("error", .jstr e)])

/-- A value the façade's `natural_language_search` may hand back to the
endpoint: a Python string, a dict, `None`, or something of another type
(carrying its type name). -/
inductive PyVal where
  | pstr : String → PyVal
  | pdict : List (String × JVal) → PyVal
  | pnone : PyVal
  | pother : String → PyVal

/-- Python truthiness of such a value (`if not result`): empty strings,
empty dicts and `None` are falsy. -/
def pyTruthy : PyVal → Bool
  | .pstr s => if s = "" then false else true
  | .pdict d => !d.isEmpty
  | .pnone => false
  | .pother _ => true

/-- The environment of one `/api/v1/search/natural-language` request:
whether the global `server` is initialized, the outcome of the awaited
façade call, and the behaviour of `json.loads`. -/
structure NlsEnv where
  serverInit : Bool
  call : Except String PyVal
  jsonLoads : String → Except String JVal

/-- The `/api/v1/search/natural-language` handler (api_server.py lines
145-205): raise 500 if the server is uninitialized; await the façade call;
raise 500 on an empty (falsy) result; parse a string result with
`json.loads`, raising 500 when that fails; pass a dict result through;
raise 500 on a result of any other type; any exception from the call itself
is caught and becomes a 500 with a descriptive message. -/
def natural_language_search (env : NlsEnv) : HResp :=
  if env.serverInit = false then
    .httpError 500 "Server not initialized. Check Azure Application Settings."
  else
    match env.call with
    | .error e => .httpError 500 ("Error processing request: " ++ e)
    | .ok result =>
      if pyTruthy result = false then
        .httpError 500 "Empty response from ServiceNow"
      else
        match result with
        | .pstr s =>
          match env.jsonLoads s with
          | .ok j => .ok j
          | .error e =>
            .httpError 500 ("Failed to parse ServiceNow response as JSON: " ++ e)
        | .pdict d => .ok (.jobj d)
        | .pnone => .httpError 500 "Unexpected response type: NoneType"
        | .pother t => .httpError 500 ("Unexpected response type: " ++ t)

theorem natural_language_search_status (env : NlsEnv) :
    (natural_language_search env).status = 200 ∨
      (natural_language_search env).status = 500 := by
  obtain ⟨si, call, jl⟩ := env
  unfold natural_language_search
  cases si
  · right; rfl
  · cases call with
    | error e => right; rfl
    | ok result =>
      by_cases ht : pyTruthy result = false
      · simp only [ht, if_true, if_pos]
        right; rfl
      · simp only [if_neg (by decide : ¬(true = false)), ht, if_neg, if_false]
        cases result with
        | pstr s =>
          cases hj : jl s with
          | ok j => left; simp [hj, HResp.status]
          | error e => right; simp [hj, HResp.status]
        | pdict d => left; rfl
        | pnone => right; rfl
        | pother t => right; rfl

/-- C6 — counterexample: an exception raised while handling a
`/api/v1/debug/info` request does not produce an HTTP 500 response: the
handler catches it and returns a normal 200 response whose body carries the
message under the key "error". -/
theorem C6_debug_info_returns_200_on_exception :
    debug_info_handler (.error "boom") = .ok (.jobj [("error", .jstr "boom")]) ∧
      (debug_info_handler (.error "boom")).status ≠ 500 :=
  ⟨rfl, by decide⟩

/-- C6 (amended): for every non-debug API endpoint, any exception raised
while handling the request (a failing façade call, or a `json.loads`
failure on its result) results in an HTTP 500 response carrying a
descriptive message, and no error status other than 500 is ever produced;
the two debug endpoints instead swallow exceptions into a 200 response with
an "error" field; in neither case does an exception escape as an unhandled
fault. -/
theorem C6_exceptions_map_to_500 (e s : String)
    (jl : String → Except String JVal) (env : NlsEnv)
    (call : Except String String) :
    (jsonEndpoint (.error e) jl = .httpError 500 e) ∧
    (jl s = .error e → jsonEndpoint (.ok s) jl = .httpError 500 e) ∧
    ((jsonEndpoint call jl).status = 200 ∨ (jsonEndpoint call jl).status = 500) ∧
    (env.serverInit = true → env.call = .error e →
      natural_language_search env
        = .httpError 500 ("Error processing request: " ++ e)) ∧
    (env.serverInit = false →
      natural_language_search env
        = .httpError 500 "Server not initialized. Check Azure Application Settings.") ∧
    ((natural_language_search env).status = 200 ∨
      (natural_language_search env).status = 500) ∧
    (debug_info_handler (.error e)).status = 200 := by
  obtain ⟨si, c, jl2⟩ := env
  refine ⟨rfl, fun hj => ?_, ?_, fun hsi hc => ?_, fun hsi => ?_, ?_, rfl⟩
  · simp [jsonEndpoint, hj]
  · cases call with
    | error e2 => right; rfl
    | ok s2 =>
      cases hj : jl s2 with
      | ok j => left; simp [jsonEndpoint, hj, HResp.status]
      | error e2 => right; simp [jsonEndpoint, hj, HResp.status]
  · subst hsi
    simp only at hc
    subst hc
    rfl
  · subst hsi
    rfl
  · exact natural_language_search_status ⟨si, c, jl2⟩

/-- C6 witness: with a `json.loads` that fails with message "bad", the
common endpoint body on a successful façade call returns HTTP 500 with
detail "bad". -/
theorem C6_exceptions_map_to_500_witness :
    jsonEndpoint (.ok "x") (fun _ => .error "bad") = .httpError 500 "bad" :=
  (C6_exceptions_map_to_500 "bad" "x" (fun _ => .error "bad")
    ⟨true, .ok .pnone, fun _ => .ok .jnull⟩ (.ok "x")).2.1 rfl

/-- C7 (confirmed): on the natural-language search endpoint, a non-empty
string result whose `json.loads` succeeds is returned as the parsed body; a
non-empty dict result is returned as-is; a falsy (empty) result, a string
result that fails to parse as JSON, and a result of any other type each
yield a 500 error response with a descriptive message rather than an
unhandled fault. -/
theorem C7_nls_result_handling (env : NlsEnv) (hsi : env.serverInit = true) :
    (∀ s j, env.call = .ok (.pstr s) → pyTruthy (.pstr s) = true →
      env.jsonLoads s = .ok j → natural_language_search env = .ok j) ∧
    (∀ d, env.call = .ok (.pdict d) → pyTruthy (.pdict d) = true →
      natural_language_search env = .ok (.jobj d)) ∧
    (∀ v, env.call = .ok v → pyTruthy v = false →
      natural_language_search env
        = .httpError 500 "Empty response from ServiceNow") ∧
    (∀ s e, env.call = .ok (.pstr s) → pyTruthy (.pstr s) = true →
      env.jsonLoads s = .error e →
      natural_language_search env
        = .httpError 500 ("Failed to parse ServiceNow response as JSON: " ++ e)) ∧
    (∀ t, env.call = .ok (.pother t) →
      natural_language_search env
        = .httpError 500 ("Unexpected response type: " ++ t)) := by
  obtain ⟨si, call, jl⟩ := env
  simp only at hsi
  subst hsi
  refine ⟨fun s j hc ht hj => ?_, fun d hc ht => ?_, fun v hc ht => ?_,
    fun s e hc ht hj => ?_, fun t hc => ?_⟩ <;> simp only at hc <;> subst hc
  · simp only at hj
    simp [natural_language_search, ht, hj]
  · simp [natural_language_search, ht]
  · simp [natural_language_search, ht]
  · simp only at hj
    simp [natural_language_search, ht, hj]
  · simp [natural_language_search, pyTruthy]

/-- C7 witness: with the server initialized, a façade result `"[]"` parsed
by a `json.loads` that returns the empty JSON array is returned as the
body. -/
theorem C7_nls_result_handling_witness :
    natural_language_search ⟨true, .ok (.pstr "[]"), fun _ => .ok (.jarr [])⟩
      = .ok (.jarr []) :=
  (C7_nls_result_handling ⟨true, .ok (.pstr "[]"), fun _ => .ok (.jarr [])⟩
    rfl).1 "[]" (.jarr []) rfl rfl rfl

/-! ## Authentication strategy selection (`api_server.py` `startup_event`,
`cli.py` `main`) -/

/-- An authentication strategy handle, as produced by `create_token_auth`,
`create_oauth_auth` or `create_basic_auth`. -/
inductive Auth where
  | tokenAuth : String → Auth
  | oauth : String → String → String → String → String → Auth
  | basicAuth : String → String → Auth
deriving DecidableEq

/-- The credential inputs: environment variables in `startup_event`,
argparse values (defaulting to the same environment variables) in the CLI
`main`. `none` models an unset variable. -/
structure Creds where
  token : Option String
  clientId : Option String
  clientSecret : Option String
  username : Option String
  password : Option String

/-- Python truthiness of a credential value: `None` and the empty string
are falsy. -/
def credPresent : Option String → Bool
  | none => false
  | some s => if s = "" then false else true

/-- Authentication selection in `startup_event` (api_server.py lines
98-119): token first, then OAuth when client id, client secret, username
and password are all present, then basic auth, else
`ValueError("Authentication credentials required")`. -/
def startup_select_auth (c : Creds) (instanceUrl : String) : Except String Auth :=
  if credPresent c.token then .ok (.tokenAuth (c.token.getD ""))
  else if credPresent c.clientId && credPresent c.clientSecret &&
      credPresent c.username && credPresent c.password then
    .ok (.oauth (c.clientId.getD "") (c.clientSecret.getD "")
      (c.username.getD "") (c.password.getD "") instanceUrl)
  else if credPresent c.username && credPresent c.password then
    .ok (.basicAuth (c.username.getD "") (c.password.getD ""))
  else .error "Authentication credentials required"

/-- Authentication selection in the CLI `main` (cli.py lines 76-88): the
same precedence; on failure it prints "Error: Authentication credentials
required" and exits with status 1 instead of raising. -/
def cli_select_auth (c : Creds) (url : String) : Except String Auth :=
  if credPresent c.token then .ok (.tokenAuth (c.token.getD ""))
  else if credPresent c.clientId && credPresent c.clientSecret &&
      credPresent c.username && credPresent c.password then
    .ok (.oauth (c.clientId.getD "") (c.clientSecret.getD "")
      (c.username.getD "") (c.password.getD "") url)
  else if credPresent c.username && credPresent c.password then
    .ok (.basicAuth (c.username.getD "") (c.password.getD ""))
  else .error "Error: Authentication credentials required"

/-- C8 (confirmed): the authentication strategy is selected with the fixed
precedence token, then OAuth (all four of client id, client secret,
username, password present), then basic auth (username and password
present); when none applies, startup fails with an error instead of
proceeding; the HTTP and CLI front ends select the same strategy on the
same credentials. -/
theorem C8_auth_selection_precedence (c : Creds) (url : String) :
    (credPresent c.token = true →
      startup_select_auth c url = .ok (.tokenAuth (c.token.getD ""))) ∧
    (credPresent c.token = false →
      (credPresent c.clientId && credPresent c.clientSecret &&
        credPresent c.username && credPresent c.password) = true →
      startup_select_auth c url
        = .ok (.oauth (c.clientId.getD "") (c.clientSecret.getD "")
            (c.username.getD "") (c.password.getD "") url)) ∧
    (credPresent c.token = false →
      (credPresent c.clientId && credPresent c.clientSecret &&
        credPresent c.username && credPresent c.password) = false →
      (credPresent c.username && credPresent c.password) = true →
      startup_select_auth c url
        = .ok (.basicAuth (c.username.getD "") (c.password.getD ""))) ∧
    (credPresent c.token = false →
      (credPresent c.clientId && credPresent c.clientSecret &&
        credPresent c.username && credPresent c.password) = false →
      (credPresent c.username && credPresent c.password) = false →
      startup_select_auth c url = .error "Authentication credentials required") ∧
    (∀ a : Auth,
      startup_select_auth c url = .ok a ↔ cli_select_auth c url = .ok a) := by
  refine ⟨fun h1 => ?_, fun h1 h2 => ?_, fun h1 h2 h3 => ?_, fun h1 h2 h3 => ?_, ?_⟩
  · unfold startup_select_auth
    rw [if_pos h1]
  · unfold startup_select_auth
    rw [if_neg (by rw [h1]; decide), if_pos h2]
  · unfold startup_select_auth
    rw [if_neg (by rw [h1]; decide), if_neg (by rw [h2]; decide), if_pos h3]
  · unfold startup_select_auth
    rw [if_neg (by rw [h1]; decide), if_neg (by rw [h2]; decide),
      if_neg (by rw [h3]; decide)]
  · intro a
    unfold startup_select_auth cli_select_auth
    by_cases h1 : credPresent c.token = true
    · rw [if_pos h1, if_pos h1]
    · rw [if_neg h1, if_neg h1]
      by_cases h2 : (credPresent c.clientId && credPresent c.clientSecret &&
          credPresent c.username && credPresent c.password) = true
      · rw [if_pos h2, if_pos h2]
      · rw [if_neg h2, if_neg h2]
        by_cases h3 : (credPresent c.username && credPresent c.password) = true
        · rw [if_pos h3, if_pos h3]
        · rw [if_neg h3, if_neg h3]
          constructor
          · intro h; exact absurd h (by simp)
          · intro h; exact absurd h (by simp)

/-- C8 witness: with only a token set, both front ends select token
authentication. -/
theorem C8_auth_selection_precedence_witness :
    startup_select_auth ⟨some "tok", none, none, none, none⟩ "https://ex"
      = .ok (.tokenAuth "tok") :=
  (C8_auth_selection_precedence ⟨some "tok", none, none, none, none⟩
    "https://ex").1 rfl

/-! ## Record Operation Façade (update path) and the
`/api/v1/incidents/update` endpoint -/

/-- Whether a normalized result reports success or error (spec §3,
`NormalizedResult.status`). -/
inductive RStatus where
  | success : RStatus
  | error : RStatus
deriving DecidableEq

/-- Modelled from the spec: the `NormalizedResult` shape of §3 — `{status:
success|error, data: records | null, message: optional string}` — produced
by the Record Operation Façade, which lives in
`mcp_server_servicenow/server.py`, a repository file not among the provided
sources. -/
structure NormalizedResult where
  status : RStatus
  data : Option JVal
  message : Option String

/-- The `IncidentUpdate` payload model constructed by the
`/api/v1/incidents/update` endpoint (api_server.py lines 269-275) from the
request's five optional fields; the class itself is imported from
`mcp_server_servicenow/server.py`. -/
structure IncidentUpdate where
  short_description : Option String
  description : Option String
  state : Option Int
  work_notes : Option String
  comments : Option String

/-- Modelled from the spec: the UpdatePayload an `IncidentUpdate` resolves
to — the mapping from field name to new value holding exactly the fields
that are set (§3 UpdatePayload). -/
def IncidentUpdate.payload (u : IncidentUpdate) : List (String × JVal) :=
  (u.short_description.map fun s => ("short_description", JVal.jstr s)).toList ++
  (u.description.map fun s => ("description", JVal.jstr s)).toList ++
  (u.state.map fun n => ("state", JVal.jnum n)).toList ++
  (u.work_notes.map fun s => ("work_notes", JVal.jstr s)).toList ++
  (u.comments.map fun s => ("comments", JVal.jstr s)).toList

/-- Modelled from the spec: the Record Operation Façade's update operation
(`ServiceNowMCP.update_incident` in `mcp_server_servicenow/server.py`, not
among the provided sources). Per §4.5 it "must reject update operations
whose UpdatePayload is empty before dispatching", yielding the EmptyUpdate
error of §7; otherwise it dispatches once to the transport collaborator and
normalizes the raw response. The second component counts transport calls. -/
def facade_update_incident (transport : String → List (String × JVal) → JVal)
    (number : String) (updates : IncidentUpdate) : NormalizedResult × Nat :=
  if updates.payload.isEmpty then
    (⟨.error, none, some "EmptyUpdate"⟩, 0)
  else
    (⟨.success, some (transport number updates.payload), none⟩, 1)

/-- The `/api/v1/incidents/update` endpoint body (api_server.py lines
265-282): it builds an `IncidentUpdate` from the request's optional fields
and calls `server.update_incident` unconditionally — the endpoint layer
itself performs no emptiness check. -/
def api_update_incident (transport : String → List (String × JVal) → JVal)
    (req : UpdateIncidentRequest) : NormalizedResult × Nat :=
  facade_update_incident transport req.number
    ⟨req.short_description, req.description, req.state, req.work_notes,
      req.comments⟩

/-- C2 (confirmed against the spec-modelled façade): an update-incident
request whose resolved UpdatePayload is empty is rejected with an error
before dispatching, and the transport collaborator is invoked zero times
for that request. -/
theorem C2_empty_update_rejected
    (transport : String → List (String × JVal) → JVal)
    (req : UpdateIncidentRequest)
    (h : (⟨req.short_description, req.description, req.state, req.work_notes,
      req.comments⟩ : IncidentUpdate).payload = []) :
    (api_update_incident transport req).2 = 0 ∧
      (api_update_incident transport req).1.status = .error ∧
      (api_update_incident transport req).1.message = some "EmptyUpdate" := by
  unfold api_update_incident facade_update_incident
  rw [if_pos (by rw [h]; rfl)]
  exact ⟨rfl, rfl, rfl⟩

/-- C2 witness: the request carrying only the incident number
`"INC0010001"` and no field values makes zero transport calls and yields an
error result. -/
theorem C2_empty_update_rejected_witness :
    (api_update_incident (fun _ _ => JVal.jnull)
      ⟨"INC0010001", none, none, none, none, none⟩).2 = 0 ∧
    (api_update_incident (fun _ _ => JVal.jnull)
      ⟨"INC0010001", none, none, none, none, none⟩).1.status = .error :=
  ⟨(C2_empty_update_rejected (fun _ _ => JVal.jnull)
      ⟨"INC0010001", none, none, none, none, none⟩ rfl).1,
    (C2_empty_update_rejected (fun _ _ => JVal.jnull)
      ⟨"INC0010001", none, none, none, none, none⟩ rfl).2.1⟩

end ServiceNowMCP
